import Mathlib

/-!
Verification of the augmentation engine in `src/App.tsx` of
MichaelZhangCGer/Data-Generator-Machine1.

The engine (`applyAugmentation` together with the orchestrator
`handleGenerate`) is shallow-embedded here.  Every call of
`Math.random()` in the source is modelled as one rational draw in
`[0, 1)`, collected in the structure `Draws` (per-pixel and per-mark
draws are indexed families).  All draw-derived parameters and gating
decisions are computable functions over `ℚ`, transcribed literally from
the source formulas.  The per-pixel arithmetic (which uses
`Math.pow` with a real exponent) is carried out over `ℝ`.

Probability statements about a single uniform draw are phrased as the
Lebesgue volume of the subset of `Set.Ico (0:ℝ) 1` on which the relevant
(real-valued) condition holds.
-/

/-- RGBA pixel; colour channels and alpha on the canvas `ImageData`
0..255 scale, as in `ctx.getImageData`. -/
structure Pixel where
  r : ℝ
  g : ℝ
  b : ℝ
  a : ℝ

/-- A pixel buffer with its dimensions; `pix x y` is the pixel at
column `x`, row `y` (the canvas is addressed this way through
`getImageData` / `putImageData`). -/
structure Buffer where
  width : ℕ
  height : ℕ
  pix : ℕ → ℕ → Pixel

/-- The three intensity knobs of `src/App.tsx` (`AugmentationParams`). -/
structure AugmentationParams where
  harshness : ℚ
  lightAging : ℚ
  dirtiness : ℚ

/-- One sample produced by `applyAugmentation` (the code's
`GeneratedImage`): `id` and `name` as in the source; the fully
transformed pixel buffer and the JPEG `quality` factor stand in for the
externally encoded `dataUrl`. -/
structure GeneratedImage where
  id : ℕ
  name : String
  buffer : Buffer
  quality : ℚ

/-- Every `Math.random()` call of one `applyAugmentation` invocation,
as a structured record of draws in `[0,1)`.  Per-pixel draws
(`noiseTrigU`, `noiseColorU`, indexed by the pixel index `y*width+x`)
and per-streak / per-mark draws are indexed families. -/
structure Draws where
  rotU : ℚ
  sclU : ℚ
  skewXU : ℚ
  skewYU : ℚ
  txU : ℚ
  tyU : ℚ
  flipU : ℚ
  brightU : ℚ
  contrastU : ℚ
  gammaU : ℚ
  hueU : ℚ
  rGainU : ℚ
  gGainU : ℚ
  bGainU : ℚ
  noiseTrigU : ℕ → ℚ
  noiseColorU : ℕ → ℚ
  fogGateU : ℚ
  fogOpacityU : ℚ
  rainGateU : ℚ
  rainCountU : ℚ
  rainXU : ℕ → ℚ
  rainYU : ℕ → ℚ
  rainLenU : ℕ → ℚ
  glareGateU : ℚ
  glareXU : ℚ
  glareYU : ℚ
  glareRadU : ℚ
  dirtCountU : ℚ
  dirtXU : ℕ → ℚ
  dirtYU : ℕ → ℚ
  dirtSizeU : ℕ → ℚ
  dirtRU : ℕ → ℚ
  dirtGU : ℕ → ℚ
  dirtBU : ℕ → ℚ
  dirtAU : ℕ → ℚ
  dirtShapeU : ℕ → ℚ
  qualityU : ℚ

/-! ### Draw-derived parameters (section A of `applyAugmentation`) -/

/-- `const rot = (Math.random() - 0.5) * 40 * (index === 0 ? 0 : 1);` -/
def rotOf (index : ℕ) (u : ℚ) : ℚ :=
  (u - 1/2) * 40 * (if index = 0 then 0 else 1)

/-- `const scl = 0.85 + Math.random() * 0.3;` -/
def sclOf (u : ℚ) : ℚ := 85/100 + u * (3/10)

/-- `const skewX = (Math.random() - 0.5) * 0.2;` (likewise `skewY`). -/
def skewOf (u : ℚ) : ℚ := (u - 1/2) * (2/10)

/-- `const tx = (Math.random() - 0.5) * (canvas.width * 0.15);`
(likewise `ty` with the height). -/
def transOf (extent : ℚ) (u : ℚ) : ℚ := (u - 1/2) * (extent * (15/100))

/-- `const flipH = Math.random() > 0.5;` -/
def flipOf (u : ℚ) : Bool := decide (1/2 < u)

/-! ### Photometric per-sample parameters (section B) -/

/-- `const pBrightness = ((p.lightAging / 100) * (Math.random() - 0.5) * 150);` -/
def pBrightnessOf (lA u : ℚ) : ℚ := (lA / 100) * (u - 1/2) * 150

/-- `const pContrast = 0.5 + Math.random() * (p.lightAging / 50);` -/
def pContrastOf (lA u : ℚ) : ℚ := 1/2 + u * (lA / 50)

/-- `const pGamma = 0.5 + Math.random() * (p.lightAging / 50);` -/
def pGammaOf (lA u : ℚ) : ℚ := 1/2 + u * (lA / 50)

/-- `const hueRotation = (p.lightAging / 100) * 360 * Math.random();`
(computed by the source but never used afterwards). -/
def hueRotationOf (lA u : ℚ) : ℚ := (lA / 100) * 360 * u

/-- `0.8 + Math.random() * 0.4` (the three channel gains). -/
def gainOf (u : ℚ) : ℚ := 4/5 + u * (2/5)

/-! ### Noise (salt and pepper, inside the per-pixel loop) -/

/-- `Math.random() > (1 - (p.harshness / 5000))` — the per-pixel
Bernoulli trial of the noise stage. -/
def noiseTriggers (h u : ℚ) : Bool := decide (1 - h / 5000 < u)

/-- `const noiseColor = Math.random() > 0.5 ? 255 : 0;` -/
def noiseColorOf (u : ℚ) : ℚ := if 1/2 < u then 255 else 0

/-! ### Overlay gates (section C) -/

/-- `if (p.harshness > 50 && Math.random() > 0.5)` -/
def fogGate (h u : ℚ) : Bool := decide (50 < h) && decide (1/2 < u)

/-- `const fogOpacity = (p.harshness / 200) * Math.random();` -/
def fogOpacityOf (h u : ℚ) : ℚ := (h / 200) * u

/-- `if (p.harshness > 70 && Math.random() > 0.6)` -/
def rainGate (h u : ℚ) : Bool := decide (70 < h) && decide (3/5 < u)

/-- `const rainCount = 100 + Math.random() * 200;` -/
def rainCountOf (u : ℚ) : ℚ := 100 + u * 200

/-- Number of iterations of `for (let j = 0; j < rainCount; j++)` for a
(possibly fractional) `rainCount`: the naturals `j` with `j < rainCount`
are `0 .. ⌈rainCount⌉ - 1`. -/
def rainIter (u : ℚ) : ℕ := (Int.toNat ⌈rainCountOf u⌉)

/-- `if (p.lightAging > 60 && Math.random() > 0.7)` -/
def glareGate (lA u : ℚ) : Bool := decide (60 < lA) && decide (7/10 < u)

/-! ### Artifact stage (section D) -/

/-- `const dirtCount = Math.floor((p.dirtiness / 100) * 30 * Math.random());` -/
def dirtCountOf (dirt u : ℚ) : ℤ := ⌊(dirt / 100) * 30 * u⌋

/-- Iterations of `for (let i = 0; i < dirtCount; i++)`. -/
def dirtIter (dirt u : ℚ) : ℕ := (dirtCountOf dirt u).toNat

/-- `const size = 1 + Math.random() * (canvas.width / 20);` -/
def dirtSizeOf (w u : ℚ) : ℚ := 1 + u * (w / 20)

/-- One colour channel of the dirt fill: `Math.random() * 50`. -/
def dirtChannelOf (u : ℚ) : ℚ := u * 50

/-- Alpha of the dirt fill: `Math.random() * 0.5`. -/
def dirtAlphaOf (u : ℚ) : ℚ := u * (1/2)

/-- `if (Math.random() > 0.5) ctx.arc(...) else ctx.rect(x, y, size, size * 0.2)`. -/
def dirtIsCircle (u : ℚ) : Bool := decide (1/2 < u)

/-- Height of the flattened-rectangle mark: `size * 0.2`. -/
def dirtRectHeightOf (w u : ℚ) : ℚ := dirtSizeOf w u * (2/10)

/-- `const quality = 0.5 + Math.random() * 0.4;` -/
def qualityOf (u : ℚ) : ℚ := 1/2 + u * (4/10)

/-- `` `aug_${timestamp}_${index}.jpg` `` -/
def augName (timestamp index : ℕ) : String :=
  "aug_" ++ toString timestamp ++ "_" ++ toString index ++ ".jpg"

/-! ### The pixel pipeline over `ℝ`

The per-pixel arithmetic of the source uses `Math.pow` with a real
exponent, so the pixel channels are modelled as real numbers and the
definitions below are necessarily noncomputable.  Canvas rasterization
(`drawImage` under an affine transform, `stroke`, `arc`/`rect` fill,
gradient fills with `source-over` compositing) is the browser's; it is
modelled concretely by inverse-affine nearest-neighbour sampling,
distance-to-segment / distance-to-centre coverage tests, linear gradient
interpolation and straight-alpha `source-over` compositing.  No claim
inspects the interior of these rasterization primitives; the claims
about these stages concern dimensions, gates and drawn parameters. -/

/-- The fully transparent pixel used for uncovered canvas area. -/
noncomputable def Pixel.transparent : Pixel := ⟨0, 0, 0, 0⟩

/-- Section A of `applyAugmentation`: `ctx.translate(W/2+tx, H/2+ty);
ctx.transform(scl*flip, skewX, skewY, scl, 0, 0); ctx.rotate(rot·π/180);
ctx.drawImage(img, -W/2, -H/2)`, modelled as inverse-affine
nearest-neighbour sampling of the source into a fresh buffer of the same
dimensions (uncovered device pixels stay transparent). -/
noncomputable def geomStage (src : Buffer) (rot scl skewX skewY tx ty : ℚ)
    (flipH : Bool) : Buffer :=
  let W : ℝ := src.width
  let H : ℝ := src.height
  let θ : ℝ := (rot : ℝ) * Real.pi / 180
  let ma : ℝ := (scl : ℝ) * (if flipH then -1 else 1)
  let mb : ℝ := (skewX : ℝ)
  let mc : ℝ := (skewY : ℝ)
  let md : ℝ := (scl : ℝ)
  let det : ℝ := ma * md - mc * mb
  { width := src.width, height := src.height,
    pix := fun x y =>
      let q1 : ℝ := (x : ℝ) - W / 2 - (tx : ℝ)
      let q2 : ℝ := (y : ℝ) - H / 2 - (ty : ℝ)
      let r1 : ℝ := (md * q1 - mc * q2) / det
      let r2 : ℝ := (ma * q2 - mb * q1) / det
      let s1 : ℝ := r1 * Real.cos θ + r2 * Real.sin θ + W / 2
      let s2 : ℝ := -r1 * Real.sin θ + r2 * Real.cos θ + H / 2
      let sx : ℤ := ⌊s1 + 1/2⌋
      let sy : ℤ := ⌊s2 + 1/2⌋
      if 0 ≤ sx ∧ sx < (src.width : ℤ) ∧ 0 ≤ sy ∧ sy < (src.height : ℤ) then
        src.pix sx.toNat sy.toNat
      else Pixel.transparent }

/-- The per-channel photometric remap of section B, exactly as the
source writes it: `val = data[i+c]/255; val = Math.pow(val, pGamma);
val *= gain; val = (val-0.5)*pContrast + 0.5 + pBrightness/255;
data[i+c] = Math.min(255, Math.max(0, val*255))`. -/
noncomputable def photometricChannel (gamma gain contrast brightness : ℚ)
    (v : ℝ) : ℝ :=
  let val := v / 255
  let val := val ^ (gamma : ℝ)
  let val := val * (gain : ℝ)
  let val := (val - 1/2) * (contrast : ℝ) + 1/2 + (brightness : ℝ) / 255
  min 255 (max 0 (val * 255))

/-- Normalization step of the spec's photometric pipeline. -/
noncomputable def normalizeChannel (v : ℝ) : ℝ := v / 255

/-- Gamma step of the spec's photometric pipeline. -/
noncomputable def gammaMap (gamma : ℚ) (x : ℝ) : ℝ := x ^ (gamma : ℝ)

/-- Channel-gain step of the spec's photometric pipeline. -/
noncomputable def gainMap (gain : ℚ) (x : ℝ) : ℝ := x * (gain : ℝ)

/-- Contrast-around-midpoint-plus-scaled-brightness step of the spec's
photometric pipeline. -/
noncomputable def contrastBrightness (contrast brightness : ℚ) (x : ℝ) : ℝ :=
  (x - 1/2) * (contrast : ℝ) + 1/2 + (brightness : ℝ) / 255

/-- Clamp to the byte range, as applied after rescaling by 255. -/
noncomputable def clampByte (x : ℝ) : ℝ := min 255 (max 0 x)

/-- The photometric per-channel map as the spec words it: normalize,
gamma, gain, contrast and brightness, clamp and write back. -/
noncomputable def photometricChannelSpec (gamma gain contrast brightness : ℚ)
    (v : ℝ) : ℝ :=
  clampByte
    (contrastBrightness contrast brightness
      (gainMap gain (gammaMap gamma (normalizeChannel v))) * 255)

/-- Photometric remap of one pixel (the `c < 3` loop); alpha is not
written. -/
noncomputable def photometricPixel (gamma rGain gGain bGain contrast
    brightness : ℚ) (px : Pixel) : Pixel :=
  { r := photometricChannel gamma rGain contrast brightness px.r,
    g := photometricChannel gamma gGain contrast brightness px.g,
    b := photometricChannel gamma bGain contrast brightness px.b,
    a := px.a }

/-- The salt-and-pepper step on one pixel: on trigger all three colour
channels are set to the drawn noise colour; alpha is not written. -/
noncomputable def saltPepper (h ut uc : ℚ) (px : Pixel) : Pixel :=
  if noiseTriggers h ut then
    { r := (noiseColorOf uc : ℝ), g := (noiseColorOf uc : ℝ),
      b := (noiseColorOf uc : ℝ), a := px.a }
  else px

/-- Section B of `applyAugmentation`: one pass over the image data
applying the photometric remap and then the salt-and-pepper trial to
each pixel (the per-pixel draws are indexed by `y * width + x`). -/
noncomputable def pixelPass (p : AugmentationParams) (d : Draws)
    (buf : Buffer) : Buffer :=
  { width := buf.width, height := buf.height,
    pix := fun x y =>
      let i := y * buf.width + x
      saltPepper p.harshness (d.noiseTrigU i) (d.noiseColorU i)
        (photometricPixel (pGammaOf p.lightAging d.gammaU)
          (gainOf d.rGainU) (gainOf d.gGainU) (gainOf d.bGainU)
          (pContrastOf p.lightAging d.contrastU)
          (pBrightnessOf p.lightAging d.brightU)
          (buf.pix x y)) }

/-- Straight-alpha `source-over` compositing of a fill colour
(`cr cg cb` on the 0..255 scale, `ca` a 0..1 alpha fraction) over a
destination pixel. -/
noncomputable def compositeOver (cr cg cb ca : ℝ) (dst : Pixel) : Pixel :=
  let aD := dst.a / 255
  let aO := ca + aD * (1 - ca)
  { r := (cr * ca + dst.r * aD * (1 - ca)) / aO,
    g := (cg * ca + dst.g * aD * (1 - ca)) / aO,
    b := (cb * ca + dst.b * aD * (1 - ca)) / aO,
    a := aO * 255 }

/-- Fog overlay: a vertical linear gradient from
`rgba(200,200,200,fogOpacity)` at the top to
`rgba(255,255,255,fogOpacity*0.2)` at the bottom, filled over the whole
frame when `fogGate` passes. -/
noncomputable def fogStage (p : AugmentationParams) (d : Draws)
    (buf : Buffer) : Buffer :=
  if fogGate p.harshness d.fogGateU then
    let fo : ℝ := (fogOpacityOf p.harshness d.fogOpacityU : ℝ)
    { width := buf.width, height := buf.height,
      pix := fun x y =>
        let t : ℝ := (y : ℝ) / (buf.height : ℝ)
        compositeOver ((1 - t) * 200 + t * 255) ((1 - t) * 200 + t * 255)
          ((1 - t) * 200 + t * 255) ((1 - t) * fo + t * (fo * (2/10)))
          (buf.pix x y) }
  else buf

/-- Squared distance from the point `(px, py)` to the segment from
`(ax, ay)` to `(bx, by2)`. -/
noncomputable def segDistSq (ax ay bx by2 px py : ℝ) : ℝ :=
  let dx := bx - ax
  let dy := by2 - ay
  let len2 := dx * dx + dy * dy
  let t := min 1 (max 0 (((px - ax) * dx + (py - ay) * dy) / len2))
  (px - (ax + t * dx)) ^ 2 + (py - (ay + t * dy)) ^ 2

section
open scoped Classical

/-- One rain streak `j`: a 1px-wide stroke of `rgba(255,255,255,0.2)`
from `(rx, ry)` to `(rx + rlen*0.1, ry + rlen)`; a pixel is covered when
its distance to the segment is at most half the line width. -/
noncomputable def rainStreak (d : Draws) (j : ℕ) (buf : Buffer) : Buffer :=
  let rx : ℝ := (d.rainXU j : ℝ) * buf.width
  let ry : ℝ := (d.rainYU j : ℝ) * buf.height
  let rlen : ℝ := 10 + (d.rainLenU j : ℝ) * 30
  { width := buf.width, height := buf.height,
    pix := fun x y =>
      if segDistSq rx ry (rx + rlen * (1/10)) (ry + rlen) x y ≤ 1/4 then
        compositeOver 255 255 255 (2/10) (buf.pix x y)
      else buf.pix x y }

/-- Rain overlay: when `rainGate` passes, `⌈rainCount⌉` streaks are
stroked in order. -/
noncomputable def rainStage (p : AugmentationParams) (d : Draws)
    (buf : Buffer) : Buffer :=
  if rainGate p.harshness d.rainGateU then
    (List.range (rainIter d.rainCountU)).foldl
      (fun b j => rainStreak d j b) buf
  else buf

/-- Glare overlay: a radial gradient from `rgba(255,255,200,0.4)` at a
random centre to transparent at radius `Math.random() * width`, filled
over the whole frame when `glareGate` passes. -/
noncomputable def glareStage (p : AugmentationParams) (d : Draws)
    (buf : Buffer) : Buffer :=
  if glareGate p.lightAging d.glareGateU then
    let gx : ℝ := (d.glareXU : ℝ) * buf.width
    let gy : ℝ := (d.glareYU : ℝ) * buf.height
    let rad : ℝ := (d.glareRadU : ℝ) * buf.width
    { width := buf.width, height := buf.height,
      pix := fun x y =>
        let t : ℝ := min 1 (max 0
          (Real.sqrt (((x : ℝ) - gx) ^ 2 + ((y : ℝ) - gy) ^ 2) / rad))
        compositeOver 255 255 ((1 - t) * 200 + t * 255) ((1 - t) * (4/10))
          (buf.pix x y) }
  else buf

/-- One dirt mark `j`: a dark translucent circle of radius `size` or a
flattened rectangle `size × size*0.2`, filled at a random position. -/
noncomputable def dirtMark (d : Draws) (j : ℕ) (buf : Buffer) : Buffer :=
  let x0 : ℝ := (d.dirtXU j : ℝ) * buf.width
  let y0 : ℝ := (d.dirtYU j : ℝ) * buf.height
  let size : ℝ := (dirtSizeOf (buf.width : ℚ) (d.dirtSizeU j) : ℝ)
  let cr : ℝ := (dirtChannelOf (d.dirtRU j) : ℝ)
  let cg : ℝ := (dirtChannelOf (d.dirtGU j) : ℝ)
  let cb : ℝ := (dirtChannelOf (d.dirtBU j) : ℝ)
  let ca : ℝ := (dirtAlphaOf (d.dirtAU j) : ℝ)
  { width := buf.width, height := buf.height,
    pix := fun x y =>
      let inside :=
        if dirtIsCircle (d.dirtShapeU j) then
          ((x : ℝ) - x0) ^ 2 + ((y : ℝ) - y0) ^ 2 ≤ size ^ 2
        else
          x0 ≤ (x : ℝ) ∧ (x : ℝ) ≤ x0 + size ∧ y0 ≤ (y : ℝ) ∧
            (y : ℝ) ≤ y0 + (dirtRectHeightOf (buf.width : ℚ) (d.dirtSizeU j) : ℝ)
      if inside then compositeOver cr cg cb ca (buf.pix x y)
      else buf.pix x y }

/-- Artifact stage: `dirtCount` dirt marks drawn in order. -/
noncomputable def dirtStage (p : AugmentationParams) (d : Draws)
    (buf : Buffer) : Buffer :=
  (List.range (dirtIter p.dirtiness d.dirtCountU)).foldl
    (fun b j => dirtMark d j b) buf

end

/-- The errors observable from one `applyAugmentation` promise.
`indexSize` is the `IndexSizeError` that the external canvas API's
`ctx.getImageData(0, 0, canvas.width, canvas.height)` throws when the
canvas has a zero dimension (the only way a run of the source can
fail).  `invalidInput` is modelled from the spec: the spec's error
taxonomy (§7) names `InvalidInput` for zero-dimension sources, but the
source never constructs any such error — the constructor exists only so
that theorems can state which error the code actually surfaces. -/
inductive EngineError where
  | indexSize : EngineError
  | invalidInput : EngineError
deriving DecidableEq

/-- The stage pipeline of `applyAugmentation` in `src/App.tsx`, i.e.
the whole body once `getImageData` has succeeded: geometric paint,
photometric and noise pass, fog, rain and glare overlays, dirt marks,
and the sample record with its `id`, file name and JPEG quality factor
(the actual JPEG byte encoding of `canvas.toDataURL` is the browser's;
the sample retains the encoder's input buffer and quality).  The
`hueRotation` value is computed and, exactly as in the source, never
used. -/
noncomputable def samplePipeline (img : Buffer) (p : AugmentationParams)
    (index : ℕ) (d : Draws) (timestamp : ℕ) : GeneratedImage :=
  let rot := rotOf index d.rotU
  let scl := sclOf d.sclU
  let skewX := skewOf d.skewXU
  let skewY := skewOf d.skewYU
  let tx := transOf (img.width : ℚ) d.txU
  let ty := transOf (img.height : ℚ) d.tyU
  let flipH := flipOf d.flipU
  let buf1 := geomStage img rot scl skewX skewY tx ty flipH
  let hueRotation := hueRotationOf p.lightAging d.hueU
  let buf2 := pixelPass p d buf1
  let buf3 := fogStage p d buf2
  let buf4 := rainStage p d buf3
  let buf5 := glareStage p d buf4
  let buf6 := dirtStage p d buf5
  { id := index, name := augName timestamp index, buffer := buf6,
    quality := qualityOf d.qualityU }

/-- One `applyAugmentation` promise.  The canvas is created with the
source's dimensions (lines 89-90) with no validation anywhere; when a
dimension is zero, `ctx.getImageData` (line 110) throws
`IndexSizeError` and the promise rejects — this happens inside the
first pixel pass, after the geometric stage has already run and its
random draws were consumed (draw consumption order is not otherwise
observable in the draw-record model).  With nonzero dimensions every
stage is total and the promise resolves with the sample. -/
noncomputable def applyAugmentation (img : Buffer) (p : AugmentationParams)
    (index : ℕ) (d : Draws) (timestamp : ℕ) :
    Except EngineError GeneratedImage :=
  if img.width = 0 ∨ img.height = 0 then Except.error EngineError.indexSize
  else Except.ok (samplePipeline img p index d timestamp)

/-- `const AUGMENTATION_COUNT = 20;` -/
def AUGMENTATION_COUNT : ℕ := 20

/-- The awaited generation loop of `handleGenerate`: each index's
`applyAugmentation` is awaited in order and its sample pushed onto the
batch; the first rejection propagates out of the enclosing async
function, so no samples at all are delivered in that case. -/
noncomputable def generateSeq (img : Buffer) (p : AugmentationParams)
    (ds : ℕ → Draws) (ts : ℕ → ℕ) :
    List ℕ → Except EngineError (List GeneratedImage)
  | [] => Except.ok []
  | i :: rest =>
      (applyAugmentation img p i (ds i) (ts i)).bind fun g =>
        (generateSeq img p ds ts rest).map fun gs => g :: gs

/-- The orchestrator `handleGenerate`: for `i` in
`0 .. AUGMENTATION_COUNT - 1` it awaits `applyAugmentation(img, params,
i)` and pushes the result, in order, onto the batch.  The source
performs no validation of the image whatsoever; its only failure mode
is the canvas `IndexSizeError` propagating out of the loop. -/
noncomputable def handleGenerate (img : Buffer) (p : AugmentationParams)
    (ds : ℕ → Draws) (ts : ℕ → ℕ) :
    Except EngineError (List GeneratedImage) :=
  generateSeq img p ds ts (List.range AUGMENTATION_COUNT)

example : noiseTriggers 0 (1/2) = false := by norm_num [noiseTriggers]
example : noiseTriggers 5000 0 = false := by norm_num [noiseTriggers]
example : rainGate 100 (1/2) = false := by norm_num [rainGate]
example : fogGate 100 (51/100) = true := by norm_num [fogGate]
example : dirtSizeOf 100 (9/10) = 11/2 := by norm_num [dirtSizeOf]
example : rainIter (1/2) = 200 := by
  norm_num [rainIter, rainCountOf]
  decide
example : augName 7 3 = "aug_7_3.jpg" := rfl

/-! ### Concrete fixtures used by witnesses -/

/-- A concrete draw record (all draws `1/2`). -/
def sampleDraws : Draws :=
  { rotU := 1/2, sclU := 1/2, skewXU := 1/2, skewYU := 1/2, txU := 1/2,
    tyU := 1/2, flipU := 1/2, brightU := 1/2, contrastU := 1/2,
    gammaU := 1/2, hueU := 1/2, rGainU := 1/2, gGainU := 1/2,
    bGainU := 1/2, noiseTrigU := fun _ => 1/2, noiseColorU := fun _ => 1/2,
    fogGateU := 1/2, fogOpacityU := 1/2, rainGateU := 1/2,
    rainCountU := 1/2, rainXU := fun _ => 1/2, rainYU := fun _ => 1/2,
    rainLenU := fun _ => 1/2, glareGateU := 1/2, glareXU := 1/2,
    glareYU := 1/2, glareRadU := 1/2, dirtCountU := 1/2,
    dirtXU := fun _ => 1/2, dirtYU := fun _ => 1/2,
    dirtSizeU := fun _ => 1/2, dirtRU := fun _ => 1/2,
    dirtGU := fun _ => 1/2, dirtBU := fun _ => 1/2,
    dirtAU := fun _ => 1/2, dirtShapeU := fun _ => 1/2, qualityU := 1/2 }

/-- A concrete opaque pixel. -/
noncomputable def samplePixel : Pixel := ⟨10, 20, 30, 255⟩

/-- A concrete 4×3 source image. -/
noncomputable def sampleImg : Buffer :=
  { width := 4, height := 3, pix := fun _ _ => samplePixel }

/-- The default slider values of the app. -/
def sampleParams : AugmentationParams := ⟨40, 40, 30⟩

/-- A source image with zero width (the case the spec wants rejected). -/
noncomputable def zeroWidthImg : Buffer :=
  { width := 0, height := 5, pix := fun _ _ => samplePixel }

/-! ### Dimension-preservation helper lemmas -/

theorem geomStage_width (src : Buffer) (r s k1 k2 tx ty : ℚ) (fl : Bool) :
    (geomStage src r s k1 k2 tx ty fl).width = src.width := rfl

theorem geomStage_height (src : Buffer) (r s k1 k2 tx ty : ℚ) (fl : Bool) :
    (geomStage src r s k1 k2 tx ty fl).height = src.height := rfl

theorem pixelPass_width (p : AugmentationParams) (d : Draws) (buf : Buffer) :
    (pixelPass p d buf).width = buf.width := rfl

theorem pixelPass_height (p : AugmentationParams) (d : Draws) (buf : Buffer) :
    (pixelPass p d buf).height = buf.height := rfl

theorem fogStage_width (p : AugmentationParams) (d : Draws) (buf : Buffer) :
    (fogStage p d buf).width = buf.width := by
  unfold fogStage; split <;> rfl

theorem fogStage_height (p : AugmentationParams) (d : Draws) (buf : Buffer) :
    (fogStage p d buf).height = buf.height := by
  unfold fogStage; split <;> rfl

theorem foldl_pix_width (f : ℕ → Buffer → Buffer)
    (hf : ∀ j b, (f j b).width = b.width) :
    ∀ (l : List ℕ) (buf : Buffer),
      (l.foldl (fun b j => f j b) buf).width = buf.width
  | [], _ => rfl
  | j :: t, buf => by
      rw [List.foldl_cons, foldl_pix_width f hf t (f j buf), hf]

theorem foldl_pix_height (f : ℕ → Buffer → Buffer)
    (hf : ∀ j b, (f j b).height = b.height) :
    ∀ (l : List ℕ) (buf : Buffer),
      (l.foldl (fun b j => f j b) buf).height = buf.height
  | [], _ => rfl
  | j :: t, buf => by
      rw [List.foldl_cons, foldl_pix_height f hf t (f j buf), hf]

theorem rainStage_width (p : AugmentationParams) (d : Draws) (buf : Buffer) :
    (rainStage p d buf).width = buf.width := by
  unfold rainStage; split
  · exact foldl_pix_width (rainStreak d) (fun _ _ => rfl) _ buf
  · rfl

theorem rainStage_height (p : AugmentationParams) (d : Draws) (buf : Buffer) :
    (rainStage p d buf).height = buf.height := by
  unfold rainStage; split
  · exact foldl_pix_height (rainStreak d) (fun _ _ => rfl) _ buf
  · rfl

theorem glareStage_width (p : AugmentationParams) (d : Draws) (buf : Buffer) :
    (glareStage p d buf).width = buf.width := by
  unfold glareStage; split <;> rfl

theorem glareStage_height (p : AugmentationParams) (d : Draws) (buf : Buffer) :
    (glareStage p d buf).height = buf.height := by
  unfold glareStage; split <;> rfl

theorem dirtStage_width (p : AugmentationParams) (d : Draws) (buf : Buffer) :
    (dirtStage p d buf).width = buf.width :=
  foldl_pix_width (dirtMark d) (fun _ _ => rfl) _ buf

theorem dirtStage_height (p : AugmentationParams) (d : Draws) (buf : Buffer) :
    (dirtStage p d buf).height = buf.height :=
  foldl_pix_height (dirtMark d) (fun _ _ => rfl) _ buf

theorem samplePipeline_buffer_width (img : Buffer)
    (p : AugmentationParams) (i : ℕ) (d : Draws) (t : ℕ) :
    (samplePipeline img p i d t).buffer.width = img.width := by
  simp only [samplePipeline]
  rw [dirtStage_width, glareStage_width, rainStage_width, fogStage_width,
    pixelPass_width, geomStage_width]

theorem samplePipeline_buffer_height (img : Buffer)
    (p : AugmentationParams) (i : ℕ) (d : Draws) (t : ℕ) :
    (samplePipeline img p i d t).buffer.height = img.height := by
  simp only [samplePipeline]
  rw [dirtStage_height, glareStage_height, rainStage_height, fogStage_height,
    pixelPass_height, geomStage_height]

/-! ### Resolution and rejection of the generation promises -/

theorem applyAugmentation_ok (img : Buffer) (p : AugmentationParams)
    (i : ℕ) (d : Draws) (t : ℕ) (hw : img.width ≠ 0)
    (hh : img.height ≠ 0) :
    applyAugmentation img p i d t =
      Except.ok (samplePipeline img p i d t) := by
  unfold applyAugmentation
  rw [if_neg (by push_neg; exact ⟨hw, hh⟩)]

theorem applyAugmentation_error (img : Buffer) (p : AugmentationParams)
    (i : ℕ) (d : Draws) (t : ℕ)
    (hz : img.width = 0 ∨ img.height = 0) :
    applyAugmentation img p i d t =
      Except.error EngineError.indexSize := by
  unfold applyAugmentation
  rw [if_pos hz]

theorem generateSeq_ok (img : Buffer) (p : AugmentationParams)
    (ds : ℕ → Draws) (ts : ℕ → ℕ) (hw : img.width ≠ 0)
    (hh : img.height ≠ 0) :
    ∀ l : List ℕ, generateSeq img p ds ts l =
      Except.ok (l.map fun i => samplePipeline img p i (ds i) (ts i))
  | [] => rfl
  | i :: rest => by
      unfold generateSeq
      rw [applyAugmentation_ok img p i (ds i) (ts i) hw hh,
        generateSeq_ok img p ds ts hw hh rest]
      rfl

theorem generateSeq_error (img : Buffer) (p : AugmentationParams)
    (ds : ℕ → Draws) (ts : ℕ → ℕ)
    (hz : img.width = 0 ∨ img.height = 0) (i : ℕ) (l : List ℕ) :
    generateSeq img p ds ts (i :: l) =
      Except.error EngineError.indexSize := by
  unfold generateSeq
  rw [applyAugmentation_error img p i (ds i) (ts i) hz]
  rfl

theorem handleGenerate_ok (img : Buffer) (p : AugmentationParams)
    (ds : ℕ → Draws) (ts : ℕ → ℕ) (hw : img.width ≠ 0)
    (hh : img.height ≠ 0) :
    handleGenerate img p ds ts =
      Except.ok ((List.range AUGMENTATION_COUNT).map
        fun i => samplePipeline img p i (ds i) (ts i)) :=
  generateSeq_ok img p ds ts hw hh _

theorem handleGenerate_error (img : Buffer) (p : AugmentationParams)
    (ds : ℕ → Draws) (ts : ℕ → ℕ)
    (hz : img.width = 0 ∨ img.height = 0) :
    handleGenerate img p ds ts = Except.error EngineError.indexSize := by
  show generateSeq img p ds ts (List.range 20) =
    Except.error EngineError.indexSize
  rw [show (20 : ℕ) = 19 + 1 from rfl, List.range_succ_eq_map]
  exact generateSeq_error img p ds ts hz 0 _

/-! ### Claim C1 -/

/-- Claim C1: for a valid source (nonzero dimensions) one orchestrator
call resolves with exactly the ordered batch of `AUGMENTATION_COUNT`
samples, and the sample at batch position `i` carries `id = i` and the
file name `aug_<timestamp>_<i>.jpg`. -/
theorem C1_batch_count_and_order (img : Buffer) (p : AugmentationParams)
    (ds : ℕ → Draws) (ts : ℕ → ℕ) (i : ℕ) (hw : img.width ≠ 0)
    (hh : img.height ≠ 0) (hi : i < AUGMENTATION_COUNT) :
    handleGenerate img p ds ts =
      Except.ok ((List.range AUGMENTATION_COUNT).map
        fun j => samplePipeline img p j (ds j) (ts j)) ∧
    ((List.range AUGMENTATION_COUNT).map
        fun j => samplePipeline img p j (ds j) (ts j)).length =
      AUGMENTATION_COUNT ∧
    (((List.range AUGMENTATION_COUNT).map
        fun j => samplePipeline img p j (ds j) (ts j))[i]?).map
      (fun g => (g.id, g.name)) = some (i, augName (ts i) i) := by
  refine ⟨handleGenerate_ok img p ds ts hw hh, by simp, ?_⟩
  rw [List.getElem?_map, List.getElem?_range hi]
  rfl

/-- Witness for C1 at a concrete source, params and batch position. -/
theorem C1_batch_count_and_order_witness :
    (sampleImg.width ≠ 0 ∧ sampleImg.height ≠ 0 ∧
      3 < AUGMENTATION_COUNT) ∧
    (handleGenerate sampleImg sampleParams (fun _ => sampleDraws)
        (fun _ => 7) =
      Except.ok ((List.range AUGMENTATION_COUNT).map
        fun j => samplePipeline sampleImg sampleParams j sampleDraws 7) ∧
    ((List.range AUGMENTATION_COUNT).map
        fun j => samplePipeline sampleImg sampleParams j sampleDraws 7).length =
      AUGMENTATION_COUNT ∧
    (((List.range AUGMENTATION_COUNT).map
        fun j => samplePipeline sampleImg sampleParams j sampleDraws 7)[3]?).map
      (fun g => (g.id, g.name)) = some (3, augName 7 3)) :=
  ⟨⟨by decide, by decide, by decide⟩,
    C1_batch_count_and_order sampleImg sampleParams (fun _ => sampleDraws)
      (fun _ => 7) 3 (by decide) (by decide) (by decide)⟩

/-! ### Claim C2 -/

/-- Counterexample to claim C2: on a source of width 0 the orchestrator
does not fail with `InvalidInput` before any stage runs — the batch is
entered and aborts with the canvas `IndexSizeError` thrown by
`getImageData` inside the first sample, after the geometric stage has
consumed its random draws.  (The claim's final part — that no samples
are produced — is the one part that does hold.) -/
theorem C2_counterexample :
    zeroWidthImg.width = 0 ∧
    handleGenerate zeroWidthImg sampleParams (fun _ => sampleDraws)
        (fun _ => 0) =
      Except.error EngineError.indexSize ∧
    handleGenerate zeroWidthImg sampleParams (fun _ => sampleDraws)
        (fun _ => 0) ≠
      Except.error EngineError.invalidInput := by
  refine ⟨rfl, handleGenerate_error _ _ _ _ (Or.inl rfl), ?_⟩
  rw [handleGenerate_error _ _ _ _ (Or.inl rfl)]
  simp

/-- Claim C2 as amended: the orchestrator performs no dimension
validation and there is no `InvalidInput`: on a zero-width source the
pipeline is entered and the first sample's `getImageData` throws the
canvas `IndexSizeError` (after the geometric stage has run on draws
already consumed); the whole call surfaces that error — not
`InvalidInput` — and no samples are produced. -/
theorem C2_no_validation (img : Buffer) (p : AugmentationParams)
    (ds : ℕ → Draws) (ts : ℕ → ℕ) (hw : img.width = 0) :
    applyAugmentation img p 0 (ds 0) (ts 0) =
      Except.error EngineError.indexSize ∧
    handleGenerate img p ds ts = Except.error EngineError.indexSize ∧
    handleGenerate img p ds ts ≠
      Except.error EngineError.invalidInput := by
  refine ⟨applyAugmentation_error img p 0 (ds 0) (ts 0) (Or.inl hw),
    handleGenerate_error img p ds ts (Or.inl hw), ?_⟩
  rw [handleGenerate_error img p ds ts (Or.inl hw)]
  simp

/-- Witness for the amended C2 on the concrete zero-width source. -/
theorem C2_no_validation_witness :
    zeroWidthImg.width = 0 ∧
    (applyAugmentation zeroWidthImg sampleParams 0 sampleDraws 0 =
      Except.error EngineError.indexSize ∧
    handleGenerate zeroWidthImg sampleParams (fun _ => sampleDraws)
        (fun _ => 0) =
      Except.error EngineError.indexSize ∧
    handleGenerate zeroWidthImg sampleParams (fun _ => sampleDraws)
        (fun _ => 0) ≠
      Except.error EngineError.invalidInput) :=
  ⟨rfl, C2_no_validation zeroWidthImg sampleParams (fun _ => sampleDraws)
    (fun _ => 0) rfl⟩

/-! ### Claim C3 -/

/-- Claim C3: every sample the engine delivers has a pixel buffer with
exactly the source's width and height, and no individual stage resizes
the working buffer. -/
theorem C3_dimensions_preserved (img : Buffer) (p : AugmentationParams)
    (i : ℕ) (d : Draws) (t : ℕ) (g : GeneratedImage) (buf : Buffer)
    (r s k1 k2 tx ty : ℚ) (fl : Bool)
    (hg : applyAugmentation img p i d t = Except.ok g) :
    (g.buffer.width = img.width ∧ g.buffer.height = img.height) ∧
    ((geomStage buf r s k1 k2 tx ty fl).width = buf.width ∧
      (geomStage buf r s k1 k2 tx ty fl).height = buf.height) ∧
    ((pixelPass p d buf).width = buf.width ∧
      (pixelPass p d buf).height = buf.height) ∧
    ((fogStage p d buf).width = buf.width ∧
      (fogStage p d buf).height = buf.height) ∧
    ((rainStage p d buf).width = buf.width ∧
      (rainStage p d buf).height = buf.height) ∧
    ((glareStage p d buf).width = buf.width ∧
      (glareStage p d buf).height = buf.height) ∧
    ((dirtStage p d buf).width = buf.width ∧
      (dirtStage p d buf).height = buf.height) := by
  have hgv : g = samplePipeline img p i d t := by
    unfold applyAugmentation at hg
    split at hg
    · simp at hg
    · exact (Except.ok.inj hg).symm
  subst hgv
  exact ⟨⟨samplePipeline_buffer_width img p i d t,
      samplePipeline_buffer_height img p i d t⟩,
    ⟨rfl, rfl⟩, ⟨rfl, rfl⟩,
    ⟨fogStage_width p d buf, fogStage_height p d buf⟩,
    ⟨rainStage_width p d buf, rainStage_height p d buf⟩,
    ⟨glareStage_width p d buf, glareStage_height p d buf⟩,
    ⟨dirtStage_width p d buf, dirtStage_height p d buf⟩⟩

/-- Witness for C3 on the concrete 4×3 source: the promise resolves
with a sample and its buffer carries the source dimensions. -/
theorem C3_dimensions_preserved_witness :
    (applyAugmentation sampleImg sampleParams 0 sampleDraws 0 =
      Except.ok (samplePipeline sampleImg sampleParams 0 sampleDraws 0)) ∧
    (((samplePipeline sampleImg sampleParams 0 sampleDraws 0).buffer.width =
        sampleImg.width ∧
      (samplePipeline sampleImg sampleParams 0 sampleDraws 0).buffer.height =
        sampleImg.height) ∧
    ((geomStage sampleImg 0 1 0 0 0 0 false).width = sampleImg.width ∧
      (geomStage sampleImg 0 1 0 0 0 0 false).height = sampleImg.height) ∧
    ((pixelPass sampleParams sampleDraws sampleImg).width =
        sampleImg.width ∧
      (pixelPass sampleParams sampleDraws sampleImg).height =
        sampleImg.height) ∧
    ((fogStage sampleParams sampleDraws sampleImg).width =
        sampleImg.width ∧
      (fogStage sampleParams sampleDraws sampleImg).height =
        sampleImg.height) ∧
    ((rainStage sampleParams sampleDraws sampleImg).width =
        sampleImg.width ∧
      (rainStage sampleParams sampleDraws sampleImg).height =
        sampleImg.height) ∧
    ((glareStage sampleParams sampleDraws sampleImg).width =
        sampleImg.width ∧
      (glareStage sampleParams sampleDraws sampleImg).height =
        sampleImg.height) ∧
    ((dirtStage sampleParams sampleDraws sampleImg).width =
        sampleImg.width ∧
      (dirtStage sampleParams sampleDraws sampleImg).height =
        sampleImg.height)) :=
  ⟨applyAugmentation_ok sampleImg sampleParams 0 sampleDraws 0
      (by decide) (by decide),
    C3_dimensions_preserved sampleImg sampleParams 0 sampleDraws 0
      (samplePipeline sampleImg sampleParams 0 sampleDraws 0) sampleImg
      0 1 0 0 0 0 false
      (applyAugmentation_ok sampleImg sampleParams 0 sampleDraws 0
        (by decide) (by decide))⟩

/-! ### Claim C4 -/

/-- Claim C4: the sample at batch index 0 receives rotation exactly 0;
every other index draws `rot = (u - 0.5) * 40 = 40u - 20`, an affine
bijection of the uniform draw `u ∈ [0,1)` onto `[-20°, 20°)` (hence a
uniform rotation in `[-20°, 20°]`). -/
theorem C4_rotation (i : ℕ) (u : ℚ) (hi : i ≠ 0) (h0 : 0 ≤ u)
    (h1 : u < 1) :
    rotOf 0 u = 0 ∧ rotOf i u = 40 * u - 20 ∧
      -20 ≤ rotOf i u ∧ rotOf i u < 20 := by
  have hr : rotOf i u = 40 * u - 20 := by
    simp only [rotOf, if_neg hi]; ring
  refine ⟨by simp [rotOf], hr, ?_, ?_⟩
  · rw [hr]; linarith
  · rw [hr]; linarith

/-- Witness for C4 at index 1 with the draw `3/4`. -/
theorem C4_rotation_witness :
    ((1 : ℕ) ≠ 0 ∧ (0 : ℚ) ≤ 3/4 ∧ (3/4 : ℚ) < 1) ∧
    (rotOf 0 (3/4) = 0 ∧ rotOf 1 (3/4) = 40 * (3/4) - 20 ∧
      -20 ≤ rotOf 1 (3/4) ∧ rotOf 1 (3/4) < 20) :=
  ⟨⟨by decide, by norm_num, by norm_num⟩,
    C4_rotation 1 (3/4) (by decide) (by norm_num) (by norm_num)⟩

/-! ### Claim C9 -/

/-- Replace only the hue-rotation draw of a draw record. -/
def setHue (d : Draws) (x : ℚ) : Draws := { d with hueU := x }

/-- Claim C9: the hue-rotation magnitude computed in the photometric
stage has no effect — two runs of `applyAugmentation` that differ only
in the hue-rotation draw produce identical samples (ids, names, every
pixel, and quality). -/
theorem C9_hue_rotation_unused (img : Buffer) (p : AugmentationParams)
    (i : ℕ) (d : Draws) (t : ℕ) (x : ℚ) :
    applyAugmentation img p i (setHue d x) t =
      applyAugmentation img p i d t := rfl

/-! ### Single-draw probabilities

The probability that `Math.random() > t` succeeds is the Lebesgue
volume of the success set inside `[0,1)`. -/

/-- Success set of the condition `Math.random() > t`. -/
def gateSet (t : ℝ) : Set ℝ := {u : ℝ | u ∈ Set.Ico (0:ℝ) 1 ∧ t < u}

theorem volume_gateSet (t : ℝ) (h0 : 0 ≤ t) :
    MeasureTheory.volume (gateSet t) = ENNReal.ofReal (1 - t) := by
  have h : gateSet t = Set.Ioo t 1 := by
    ext u
    simp only [gateSet, Set.mem_setOf_eq, Set.mem_Ico, Set.mem_Ioo]
    constructor
    · rintro ⟨⟨_, hu1⟩, htu⟩; exact ⟨htu, hu1⟩
    · rintro ⟨htu, hu1⟩; exact ⟨⟨le_trans h0 htu.le, hu1⟩, htu⟩
  rw [h, Real.volume_Ioo]

theorem volume_gateSet_compl (t : ℝ) (h0 : 0 ≤ t) (h1 : t < 1) :
    MeasureTheory.volume {v : ℝ | v ∈ Set.Ico (0:ℝ) 1 ∧ ¬ (t < v)} =
      ENNReal.ofReal t := by
  have h : {v : ℝ | v ∈ Set.Ico (0:ℝ) 1 ∧ ¬ (t < v)} = Set.Icc 0 t := by
    ext v
    simp only [Set.mem_setOf_eq, Set.mem_Ico, Set.mem_Icc, not_lt]
    constructor
    · rintro ⟨⟨hv0, _⟩, hvt⟩; exact ⟨hv0, hvt⟩
    · rintro ⟨hv0, hvt⟩; exact ⟨⟨hv0, lt_of_le_of_lt hvt h1⟩, hvt⟩
  rw [h, Real.volume_Icc]
  norm_num

/-- The fog gate condition over a real-valued draw. -/
def fogGateR (h : ℚ) (u : ℝ) : Prop := 50 < h ∧ 1/2 < u

/-- The rain gate condition over a real-valued draw. -/
def rainGateR (h : ℚ) (u : ℝ) : Prop := 70 < h ∧ 3/5 < u

/-- The glare gate condition over a real-valued draw. -/
def glareGateR (lA : ℚ) (u : ℝ) : Prop := 60 < lA ∧ 7/10 < u

/-- The noise trial condition over a real-valued draw. -/
def noiseTriggersR (h : ℚ) (u : ℝ) : Prop := 1 - (h : ℝ) / 5000 < u

/-- The salt-versus-pepper colour choice over a real-valued draw. -/
def saltWhiteR (u : ℝ) : Prop := 1/2 < u

/-- The circle-versus-rectangle shape choice over a real-valued draw. -/
def dirtIsCircleR (u : ℝ) : Prop := 1/2 < u

/-! ### Claim C5 -/

/-- Counterexample to claim C5: at `harshness = 100` the rain flip
`Math.random() > 0.6` succeeds on the draw set `(0.6, 1)`, whose
measure is `2/5`, not the claimed 60%. -/
theorem C5_counterexample :
    MeasureTheory.volume
      {v : ℝ | v ∈ Set.Ico (0:ℝ) 1 ∧ rainGateR 100 v} ≠
      ENNReal.ofReal (3/5) := by
  have h : {v : ℝ | v ∈ Set.Ico (0:ℝ) 1 ∧ rainGateR 100 v} =
      gateSet (3/5) := by
    ext v
    simp only [Set.mem_setOf_eq, rainGateR, gateSet]
    constructor
    · rintro ⟨hv, _, hv2⟩; exact ⟨hv, hv2⟩
    · rintro ⟨hv, hv2⟩; exact ⟨hv, by norm_num, hv2⟩
  rw [h, volume_gateSet (3/5) (by norm_num), Ne,
    ENNReal.ofReal_eq_ofReal_iff (by norm_num) (by norm_num)]
  norm_num

/-- Claim C5 as amended: fog applies iff `harshness > 50` and a
50%-probability flip, rain iff `harshness > 70` and a
**40%**-probability flip (`Math.random() > 0.6`), glare iff
`lightAging > 60` and a **30%**-probability flip
(`Math.random() > 0.7`); with both params 0 no overlay ever triggers,
and at params 100 the per-sample trigger probabilities are 50%, 40%
and 30%. -/
theorem C5_overlay_gating (h lA u : ℚ) :
    (fogGate h u = true ↔ 50 < h ∧ 1/2 < u) ∧
    (rainGate h u = true ↔ 70 < h ∧ 3/5 < u) ∧
    (glareGate lA u = true ↔ 60 < lA ∧ 7/10 < u) ∧
    (fogGate 0 u = false ∧ rainGate 0 u = false ∧ glareGate 0 u = false) ∧
    MeasureTheory.volume {v : ℝ | v ∈ Set.Ico (0:ℝ) 1 ∧ fogGateR 100 v} =
      ENNReal.ofReal (1/2) ∧
    MeasureTheory.volume {v : ℝ | v ∈ Set.Ico (0:ℝ) 1 ∧ rainGateR 100 v} =
      ENNReal.ofReal (2/5) ∧
    MeasureTheory.volume {v : ℝ | v ∈ Set.Ico (0:ℝ) 1 ∧ glareGateR 100 v} =
      ENNReal.ofReal (3/10) := by
  refine ⟨by simp [fogGate], by simp [rainGate], by simp [glareGate],
    ⟨by norm_num [fogGate], by norm_num [rainGate], by norm_num [glareGate]⟩,
    ?_, ?_, ?_⟩
  · have hs : {v : ℝ | v ∈ Set.Ico (0:ℝ) 1 ∧ fogGateR 100 v} =
        gateSet (1/2) := by
      ext v
      simp only [Set.mem_setOf_eq, fogGateR, gateSet]
      constructor
      · rintro ⟨hv, _, hv2⟩; exact ⟨hv, hv2⟩
      · rintro ⟨hv, hv2⟩; exact ⟨hv, by norm_num, hv2⟩
    rw [hs, volume_gateSet (1/2) (by norm_num)]
    norm_num
  · have hs : {v : ℝ | v ∈ Set.Ico (0:ℝ) 1 ∧ rainGateR 100 v} =
        gateSet (3/5) := by
      ext v
      simp only [Set.mem_setOf_eq, rainGateR, gateSet]
      constructor
      · rintro ⟨hv, _, hv2⟩; exact ⟨hv, hv2⟩
      · rintro ⟨hv, hv2⟩; exact ⟨hv, by norm_num, hv2⟩
    rw [hs, volume_gateSet (3/5) (by norm_num)]
    norm_num
  · have hs : {v : ℝ | v ∈ Set.Ico (0:ℝ) 1 ∧ glareGateR 100 v} =
        gateSet (7/10) := by
      ext v
      simp only [Set.mem_setOf_eq, glareGateR, gateSet]
      constructor
      · rintro ⟨hv, _, hv2⟩; exact ⟨hv, hv2⟩
      · rintro ⟨hv, hv2⟩; exact ⟨hv, by norm_num, hv2⟩
    rw [hs, volume_gateSet (7/10) (by norm_num)]
    norm_num

/-! ### Claim C6 -/

/-- Alpha is never written by the salt-and-pepper step, trigger or
not. -/
theorem saltPepper_alpha (h ut uc : ℚ) (px : Pixel) :
    (saltPepper h ut uc px).a = px.a := by
  unfold saltPepper; split <;> rfl

/-- Claim C6: each pixel's noise trial succeeds exactly on
`u > 1 - harshness/5000`, an event of probability `harshness/5000`; at
`harshness = 0` it never succeeds; on success all three colour channels
are set to the drawn colour, which is 255 or 0 with equal probability,
and alpha is untouched. -/
theorem C6_salt_pepper_noise (h u ut uc : ℚ) (px : Pixel) (hh0 : 0 ≤ h)
    (hh1 : h ≤ 100) (hu1 : u < 1) (htrig : noiseTriggers h ut = true) :
    (noiseTriggers h ut = true ↔ 1 - h / 5000 < ut) ∧
    noiseTriggers 0 u = false ∧
    MeasureTheory.volume
        {v : ℝ | v ∈ Set.Ico (0:ℝ) 1 ∧ noiseTriggersR h v} =
      ENNReal.ofReal ((h : ℝ) / 5000) ∧
    (saltPepper h ut uc px).r = (noiseColorOf uc : ℝ) ∧
    (saltPepper h ut uc px).g = (noiseColorOf uc : ℝ) ∧
    (saltPepper h ut uc px).b = (noiseColorOf uc : ℝ) ∧
    (saltPepper h ut uc px).a = px.a ∧
    (noiseColorOf uc = 255 ∨ noiseColorOf uc = 0) ∧
    MeasureTheory.volume {v : ℝ | v ∈ Set.Ico (0:ℝ) 1 ∧ saltWhiteR v} =
      ENNReal.ofReal (1/2) ∧
    MeasureTheory.volume {v : ℝ | v ∈ Set.Ico (0:ℝ) 1 ∧ ¬ saltWhiteR v} =
      ENNReal.ofReal (1/2) := by
  have hvol : MeasureTheory.volume
      {v : ℝ | v ∈ Set.Ico (0:ℝ) 1 ∧ noiseTriggersR h v} =
      ENNReal.ofReal ((h : ℝ) / 5000) := by
    have hs : {v : ℝ | v ∈ Set.Ico (0:ℝ) 1 ∧ noiseTriggersR h v} =
        gateSet (1 - (h : ℝ) / 5000) := rfl
    have ht0 : (0 : ℝ) ≤ 1 - (h : ℝ) / 5000 := by
      have : (h : ℝ) ≤ 100 := by exact_mod_cast hh1
      linarith
    rw [hs, volume_gateSet _ ht0]
    congr 1
    ring
  have hpx : saltPepper h ut uc px =
      { r := (noiseColorOf uc : ℝ), g := (noiseColorOf uc : ℝ),
        b := (noiseColorOf uc : ℝ), a := px.a } := by
    unfold saltPepper
    rw [if_pos htrig]
  refine ⟨by simp [noiseTriggers], ?_, hvol,
    by rw [hpx], by rw [hpx], by rw [hpx], saltPepper_alpha h ut uc px,
    ?_, ?_, ?_⟩
  · have : ¬ (1 - (0:ℚ) / 5000 < u) := by norm_num; linarith
    simpa [noiseTriggers] using this
  · unfold noiseColorOf; split
    · exact Or.inl rfl
    · exact Or.inr rfl
  · have hs : {v : ℝ | v ∈ Set.Ico (0:ℝ) 1 ∧ saltWhiteR v} =
        gateSet (1/2) := rfl
    rw [hs, volume_gateSet _ (by norm_num)]
    norm_num
  · exact volume_gateSet_compl (1/2) (by norm_num) (by norm_num)

/-- Witness for C6 at `harshness = 50` with a triggering draw. -/
theorem C6_salt_pepper_noise_witness :
    ((0:ℚ) ≤ 50 ∧ (50:ℚ) ≤ 100 ∧ (1/2:ℚ) < 1 ∧
      noiseTriggers 50 (199/200) = true) ∧
    ((noiseTriggers 50 (199/200) = true ↔ (1:ℚ) - 50 / 5000 < 199/200) ∧
      noiseTriggers 0 (1/2) = false ∧
      MeasureTheory.volume
          {v : ℝ | v ∈ Set.Ico (0:ℝ) 1 ∧ noiseTriggersR 50 v} =
        ENNReal.ofReal ((50 : ℚ) / 5000 : ℝ) ∧
      (saltPepper 50 (199/200) (3/4) samplePixel).r =
        (noiseColorOf (3/4) : ℝ) ∧
      (saltPepper 50 (199/200) (3/4) samplePixel).g =
        (noiseColorOf (3/4) : ℝ) ∧
      (saltPepper 50 (199/200) (3/4) samplePixel).b =
        (noiseColorOf (3/4) : ℝ) ∧
      (saltPepper 50 (199/200) (3/4) samplePixel).a = samplePixel.a ∧
      (noiseColorOf (3/4) = 255 ∨ noiseColorOf (3/4) = 0) ∧
      MeasureTheory.volume {v : ℝ | v ∈ Set.Ico (0:ℝ) 1 ∧ saltWhiteR v} =
        ENNReal.ofReal (1/2) ∧
      MeasureTheory.volume {v : ℝ | v ∈ Set.Ico (0:ℝ) 1 ∧ ¬ saltWhiteR v} =
        ENNReal.ofReal (1/2)) :=
  ⟨⟨by norm_num, by norm_num, by norm_num, by norm_num [noiseTriggers]⟩,
    C6_salt_pepper_noise 50 (1/2) (199/200) (3/4) samplePixel
      (by norm_num) (by norm_num) (by norm_num)
      (by norm_num [noiseTriggers])⟩

/-! ### Claim C7 -/

/-- Claim C7: the photometric stage draws its per-sample parameters
within the stated ranges (the brightness delta lies within
`±(lightAging/100)·150`, contrast and gamma in `[0.5, 0.5 +
lightAging/50]`, channel gains in `[0.8, 1.2]`), and the per-channel
pixel transform is exactly the spec's sequence — normalize, gamma,
gain, contrast around 0.5 plus the brightness offset scaled to `[0,1]`,
clamp to `[0,255]` — with alpha untouched. -/
theorem C7_photometric_stage (lA u gamma gain contrast brightness
    g1 g2 g3 : ℚ) (v : ℝ) (px : Pixel) (h0 : 0 ≤ u) (h1 : u < 1)
    (hlA : 0 ≤ lA) :
    (-((lA / 100) * 150) ≤ pBrightnessOf lA u ∧
      pBrightnessOf lA u ≤ (lA / 100) * 150) ∧
    (1/2 ≤ pContrastOf lA u ∧ pContrastOf lA u ≤ 1/2 + lA / 50) ∧
    (1/2 ≤ pGammaOf lA u ∧ pGammaOf lA u ≤ 1/2 + lA / 50) ∧
    (4/5 ≤ gainOf u ∧ gainOf u ≤ 6/5) ∧
    photometricChannel gamma gain contrast brightness v =
      photometricChannelSpec gamma gain contrast brightness v ∧
    (photometricPixel gamma g1 g2 g3 contrast brightness px).a = px.a ∧
    (photometricPixel gamma g1 g2 g3 contrast brightness px).r =
      photometricChannel gamma g1 contrast brightness px.r ∧
    (photometricPixel gamma g1 g2 g3 contrast brightness px).g =
      photometricChannel gamma g2 contrast brightness px.g ∧
    (photometricPixel gamma g1 g2 g3 contrast brightness px).b =
      photometricChannel gamma g3 contrast brightness px.b := by
  have hu1' : u - 1/2 ≤ 1/2 := by linarith
  have hu0' : -(1/2 : ℚ) ≤ u - 1/2 := by linarith
  have hla100 : 0 ≤ lA / 100 := by linarith
  have hla50 : 0 ≤ lA / 50 := by linarith
  refine ⟨⟨?_, ?_⟩, ⟨?_, ?_⟩, ⟨?_, ?_⟩, ⟨?_, ?_⟩, rfl, rfl, rfl, rfl, rfl⟩
  · unfold pBrightnessOf
    nlinarith [mul_le_mul_of_nonneg_left hu0' hla100]
  · unfold pBrightnessOf
    nlinarith [mul_le_mul_of_nonneg_left hu1' hla100]
  · unfold pContrastOf
    nlinarith [mul_nonneg h0 hla50]
  · unfold pContrastOf
    nlinarith [mul_le_of_le_one_left hla50 h1.le]
  · unfold pGammaOf
    nlinarith [mul_nonneg h0 hla50]
  · unfold pGammaOf
    nlinarith [mul_le_of_le_one_left hla50 h1.le]
  · unfold gainOf
    nlinarith [mul_nonneg h0 (show (0:ℚ) ≤ 2/5 by norm_num)]
  · unfold gainOf
    nlinarith [mul_le_of_le_one_left (show (0:ℚ) ≤ 2/5 by norm_num) h1.le]

/-- Witness for C7 at `lightAging = 100` with the draw `1/2`. -/
theorem C7_photometric_stage_witness :
    ((0:ℚ) ≤ 1/2 ∧ (1/2:ℚ) < 1 ∧ (0:ℚ) ≤ 100) ∧
    ((-(((100:ℚ) / 100) * 150) ≤ pBrightnessOf 100 (1/2) ∧
        pBrightnessOf 100 (1/2) ≤ ((100:ℚ) / 100) * 150) ∧
      ((1/2:ℚ) ≤ pContrastOf 100 (1/2) ∧
        pContrastOf 100 (1/2) ≤ 1/2 + (100:ℚ) / 50) ∧
      ((1/2:ℚ) ≤ pGammaOf 100 (1/2) ∧
        pGammaOf 100 (1/2) ≤ 1/2 + (100:ℚ) / 50) ∧
      ((4/5:ℚ) ≤ gainOf (1/2) ∧ gainOf (1/2) ≤ 6/5) ∧
      photometricChannel 1 1 1 0 123 = photometricChannelSpec 1 1 1 0 123 ∧
      (photometricPixel 1 1 1 1 1 0 samplePixel).a = samplePixel.a ∧
      (photometricPixel 1 1 1 1 1 0 samplePixel).r =
        photometricChannel 1 1 1 0 samplePixel.r ∧
      (photometricPixel 1 1 1 1 1 0 samplePixel).g =
        photometricChannel 1 1 1 0 samplePixel.g ∧
      (photometricPixel 1 1 1 1 1 0 samplePixel).b =
        photometricChannel 1 1 1 0 samplePixel.b) :=
  ⟨⟨by norm_num, by norm_num, by norm_num⟩,
    C7_photometric_stage 100 (1/2) 1 1 1 0 1 1 1 123 samplePixel
      (by norm_num) (by norm_num) (by norm_num)⟩

/-! ### Claim C8 -/

/-- Counterexample to claim C8: with frame width 100 and the size draw
`9/10` (inside `[0,1)`), the mark size is `1 + 0.9·(100/20) = 5.5`,
strictly larger than `1/20` of the frame width (which is 5). -/
theorem C8_counterexample :
    (0:ℚ) ≤ 9/10 ∧ (9/10:ℚ) < 1 ∧ (100:ℚ) / 20 < dirtSizeOf 100 (9/10) := by
  norm_num [dirtSizeOf]

/-- Claim C8 as amended: the mark count is
`floor((dirtiness/100)·30·U)` (so 0 whenever `dirtiness = 0`); each
mark's size lies in `[1, 1 + width/20)` — that is, up to **1 plus**
1/20 of the frame width, not up to 1/20 of it; fill channels lie in
`[0, 50)` and fill alpha in `[0, 0.5)`; the shape is a circle with
probability 1/2 or a rectangle of height 20% of its width with
probability 1/2. -/
theorem C8_artifact_draws (dirt w u : ℚ) (hu0 : 0 ≤ u) (hu1 : u < 1)
    (hw : 0 < w) (hd : 0 ≤ dirt) :
    dirtCountOf dirt u = ⌊(dirt / 100) * 30 * u⌋ ∧
    dirtCountOf 0 u = 0 ∧
    0 ≤ dirtCountOf dirt u ∧
    (1 ≤ dirtSizeOf w u ∧ dirtSizeOf w u < 1 + w / 20) ∧
    (0 ≤ dirtChannelOf u ∧ dirtChannelOf u < 50) ∧
    (0 ≤ dirtAlphaOf u ∧ dirtAlphaOf u < 1/2) ∧
    dirtRectHeightOf w u = dirtSizeOf w u * (1/5) ∧
    MeasureTheory.volume {v : ℝ | v ∈ Set.Ico (0:ℝ) 1 ∧ dirtIsCircleR v} =
      ENNReal.ofReal (1/2) ∧
    MeasureTheory.volume
        {v : ℝ | v ∈ Set.Ico (0:ℝ) 1 ∧ ¬ dirtIsCircleR v} =
      ENNReal.ofReal (1/2) := by
  have hw20 : 0 < w / 20 := by linarith
  refine ⟨rfl, ?_, ?_, ⟨?_, ?_⟩, ⟨?_, ?_⟩, ⟨?_, ?_⟩, ?_, ?_, ?_⟩
  · unfold dirtCountOf
    norm_num
  · exact Int.floor_nonneg.mpr (by positivity)
  · unfold dirtSizeOf
    nlinarith [mul_nonneg hu0 hw20.le]
  · unfold dirtSizeOf
    nlinarith [mul_lt_of_lt_one_left hw20 hu1]
  · exact mul_nonneg hu0 (by norm_num)
  · unfold dirtChannelOf
    nlinarith
  · exact mul_nonneg hu0 (by norm_num)
  · unfold dirtAlphaOf
    nlinarith
  · unfold dirtRectHeightOf
    ring
  · have hs : {v : ℝ | v ∈ Set.Ico (0:ℝ) 1 ∧ dirtIsCircleR v} =
        gateSet (1/2) := rfl
    rw [hs, volume_gateSet _ (by norm_num)]
    norm_num
  · exact volume_gateSet_compl (1/2) (by norm_num) (by norm_num)

/-- Witness for the amended C8 at `dirtiness = 30`, width 100, draw
`1/2`. -/
theorem C8_artifact_draws_witness :
    ((0:ℚ) ≤ 1/2 ∧ (1/2:ℚ) < 1 ∧ (0:ℚ) < 100 ∧ (0:ℚ) ≤ 30) ∧
    (dirtCountOf 30 (1/2) = ⌊((30:ℚ) / 100) * 30 * (1/2)⌋ ∧
      dirtCountOf 0 (1/2) = 0 ∧
      0 ≤ dirtCountOf 30 (1/2) ∧
      ((1:ℚ) ≤ dirtSizeOf 100 (1/2) ∧
        dirtSizeOf 100 (1/2) < 1 + (100:ℚ) / 20) ∧
      ((0:ℚ) ≤ dirtChannelOf (1/2) ∧ dirtChannelOf (1/2) < 50) ∧
      ((0:ℚ) ≤ dirtAlphaOf (1/2) ∧ dirtAlphaOf (1/2) < 1/2) ∧
      dirtRectHeightOf 100 (1/2) = dirtSizeOf 100 (1/2) * (1/5) ∧
      MeasureTheory.volume
          {v : ℝ | v ∈ Set.Ico (0:ℝ) 1 ∧ dirtIsCircleR v} =
        ENNReal.ofReal (1/2) ∧
      MeasureTheory.volume
          {v : ℝ | v ∈ Set.Ico (0:ℝ) 1 ∧ ¬ dirtIsCircleR v} =
        ENNReal.ofReal (1/2)) :=
  ⟨⟨by norm_num, by norm_num, by norm_num, by norm_num⟩,
    C8_artifact_draws 30 100 (1/2) (by norm_num) (by norm_num)
      (by norm_num) (by norm_num)⟩

/-! ### Claim C10 -/

/-- Counterexample to claim C10: at `harshness = 5000` (which is
`≥ 5000`) the noise trial does **not** fire on the draw `0`, which lies
in `[0, 1)` — the condition is the strict `Math.random() > 0`. -/
theorem C10_counterexample :
    (5000:ℚ) ≤ 5000 ∧ (0:ℚ) ≤ 0 ∧ (0:ℚ) < 1 ∧
      noiseTriggers 5000 0 = false := by
  norm_num [noiseTriggers]

/-- Claim C10 as amended: `applyAugmentation` performs no validation or
clamping of the params.  For `harshness > 5000` the noise trial fires
on every draw in `[0,1)` — including the draw 0; at exactly 5000 it
fires on every positive draw but **not** on a draw of exactly 0 (the
condition there is the strict `Math.random() > 0`); for negative
harshness it fires on no draw in `[0,1)`.  Out-of-range `lightAging`
feeds raw into the brightness/contrast/gamma formulas, and no error is
ever raised on account of the params: for any source with nonzero
dimensions the full batch is produced for arbitrary params. -/
theorem C10_no_param_validation (h hneg u upos lA : ℚ) (img : Buffer)
    (p : AugmentationParams) (ds : ℕ → Draws) (ts : ℕ → ℕ)
    (hgt : 5000 < h) (hn : hneg < 0) (hu0 : 0 ≤ u) (hu1 : u < 1)
    (hp0 : 0 < upos) (hp1 : upos < 1) (hw : img.width ≠ 0)
    (hh : img.height ≠ 0) :
    noiseTriggers h u = true ∧
    noiseTriggers 5000 upos = true ∧
    noiseTriggers 5000 0 = false ∧
    noiseTriggers hneg u = false ∧
    pBrightnessOf lA u = (lA / 100) * (u - 1/2) * 150 ∧
    pContrastOf lA u = 1/2 + u * (lA / 50) ∧
    pGammaOf lA u = 1/2 + u * (lA / 50) ∧
    handleGenerate img p ds ts =
      Except.ok ((List.range AUGMENTATION_COUNT).map
        fun j => samplePipeline img p j (ds j) (ts j)) ∧
    ((List.range AUGMENTATION_COUNT).map
        fun j => samplePipeline img p j (ds j) (ts j)).length =
      AUGMENTATION_COUNT := by
  refine ⟨?_, ?_, by norm_num [noiseTriggers], ?_, rfl, rfl, rfl,
    handleGenerate_ok img p ds ts hw hh, by simp⟩
  · simp only [noiseTriggers, decide_eq_true_eq]
    have : 1 < h / 5000 := by linarith
    linarith
  · simp only [noiseTriggers, decide_eq_true_eq]
    norm_num
    linarith
  · simp only [noiseTriggers, decide_eq_false_iff_not, not_lt]
    linarith

/-- Witness for the amended C10 with `harshness = 6000`, a negative
harshness of `-50`, the boundary draw `0`, the positive draw `1/2` and
`lightAging = 999`. -/
theorem C10_no_param_validation_witness :
    ((5000:ℚ) < 6000 ∧ (-50:ℚ) < 0 ∧ (0:ℚ) ≤ 0 ∧ (0:ℚ) < 1 ∧
      (0:ℚ) < 1/2 ∧ (1/2:ℚ) < 1 ∧ sampleImg.width ≠ 0 ∧
      sampleImg.height ≠ 0) ∧
    (noiseTriggers 6000 0 = true ∧
      noiseTriggers 5000 (1/2) = true ∧
      noiseTriggers 5000 0 = false ∧
      noiseTriggers (-50) 0 = false ∧
      pBrightnessOf 999 0 = ((999:ℚ) / 100) * (0 - 1/2) * 150 ∧
      pContrastOf 999 0 = 1/2 + (0:ℚ) * ((999:ℚ) / 50) ∧
      pGammaOf 999 0 = 1/2 + (0:ℚ) * ((999:ℚ) / 50) ∧
      handleGenerate sampleImg ⟨6000, 999, -7⟩ (fun _ => sampleDraws)
          (fun _ => 0) =
        Except.ok ((List.range AUGMENTATION_COUNT).map
          fun j => samplePipeline sampleImg ⟨6000, 999, -7⟩ j
            sampleDraws 0) ∧
      ((List.range AUGMENTATION_COUNT).map
          fun j => samplePipeline sampleImg ⟨6000, 999, -7⟩ j
            sampleDraws 0).length = AUGMENTATION_COUNT) :=
  ⟨⟨by norm_num, by norm_num, by norm_num, by norm_num, by norm_num,
      by norm_num, by decide, by decide⟩,
    C10_no_param_validation 6000 (-50) 0 (1/2) 999 sampleImg
      ⟨6000, 999, -7⟩ (fun _ => sampleDraws) (fun _ => 0)
      (by norm_num) (by norm_num) (by norm_num) (by norm_num)
      (by norm_num) (by norm_num) (by decide) (by decide)⟩
